import Mathlib

/-!
Shallow embedding of `src/static/js/leaderboard.js` (class `LeaderboardRenderer`).

Modelling conventions:
* A row is a JS object mapping column ids to primitive values; it is embedded
  as an association list, and property access `row[k]` returns `Option Value`
  (`none` = the JS value `undefined`).
* Primitive values are numbers or strings (the data model of the spec).  JS
  numbers are modelled as `Int`: only their ordering and printing matter here,
  and the embedding does not model floating point.  The JS `<` operator on two
  numbers or two strings is the usual order; a comparison involving
  `undefined`, or a number/string mix (which coerces a non-numeric string to
  `NaN`), evaluates to `false`.
* `Array.prototype.sort(cmp)` is modelled as a stable insertion sort driven by
  the comparator: an element `a` is placed before `b` when `cmp a b ≤ 0`.  For
  a consistent comparator this is the order any conforming JS implementation
  must produce (ES2019 requires a stable sort).
* The DOM is modelled by the three target elements the module writes to
  (title, table head, table body), each `Option` (= `getElementById` may
  return `null`), holding the abstract content the module assigns.
  `console.error` output is modelled as an explicit list of log messages where
  a claim refers to logging.
-/

namespace Leaderboard

/-- A primitive cell value: a JS number (modelled as `Int`) or a string. -/
inductive Value where
  | num (n : Int)
  | str (s : String)
  deriving DecidableEq, Repr

/-- A data row: a JS object keyed by column id (association list, first
binding wins, as JS objects have unique keys). -/
def Row : Type := List (String × Value)

instance : DecidableEq Row := by
  unfold Row
  infer_instance

/-- JS property access `row[k]`: `none` models `undefined`. -/
def rowGet (r : Row) (k : String) : Option Value :=
  (List.find? (fun p => p.1 == k) r).map Prod.snd

/-- JS `<` on two cell values (either of which may be `undefined`):
number/number and string/string compare normally; any comparison involving
`undefined` is `false`; a number/string mix coerces the string to a number,
which for the non-numeric strings of this data model is `NaN`, making the
comparison `false`. -/
def jsLt : Option Value → Option Value → Bool
  | some (Value.num a), some (Value.num b) => decide (a < b)
  | some (Value.str a), some (Value.str b) => decide (a < b)
  | _, _ => false

/-- JS `<=` on two cell values: like `jsLt`, a comparison involving
`undefined` (or a number/string mix) is `false`; otherwise the usual order. -/
def jsLe : Option Value → Option Value → Bool
  | some (Value.num a), some (Value.num b) => decide (a ≤ b)
  | some (Value.str a), some (Value.str b) => decide (a ≤ b)
  | _, _ => false

/-- JS `>=` on two cell values, under the same conventions. -/
def jsGe : Option Value → Option Value → Bool
  | some (Value.num a), some (Value.num b) => decide (b ≤ a)
  | some (Value.str a), some (Value.str b) => decide (b ≤ a)
  | _, _ => false

/-- Is `pat` a contiguous infix of the character list?  Executable containment
check used to settle "the text contains ..." statements. -/
def listHasInfix (pat : List Char) : List Char → Bool
  | [] => pat.isEmpty
  | c :: cs => pat.isPrefixOf (c :: cs) || listHasInfix pat cs

/-- Is `pat` a contiguous substring of `s`? -/
def strContains (s pat : String) : Bool :=
  listHasInfix pat.data s.data

/-- Sort direction, the strings `'asc'` / `'desc'` in the source. -/
inductive Direction where
  | asc
  | desc
  deriving DecidableEq, Repr

/-- `this.sortConfig`: `{ key, direction }`. -/
structure SortState where
  key : String
  direction : Direction
  deriving DecidableEq, Repr

/-- The comparator passed to `sort` in `getSortedRows` (lines 104-112):
`a[key] < b[key]` gives `-1` for `'asc'` and `1` for `'desc'`;
`a[key] > b[key]` gives `1` for `'asc'` and `-1` for `'desc'`; otherwise `0`. -/
def rowCmp (s : SortState) (a b : Row) : Int :=
  if jsLt (rowGet a s.key) (rowGet b s.key) then
    match s.direction with
    | Direction.asc => -1
    | Direction.desc => 1
  else if jsLt (rowGet b s.key) (rowGet a s.key) then
    match s.direction with
    | Direction.asc => 1
    | Direction.desc => -1
  else 0

/-- A column definition from the dataset. -/
structure Column where
  id : String
  label : String
  sortable : Bool
  emphasized : Bool
  deriving DecidableEq, Repr

/-- `this.data`: the fetched JSON dataset. -/
structure Dataset where
  title : String
  columns : List Column
  rows : List Row
  deriving DecidableEq

/-- `getSortedRows` (line 104): `[...this.data.rows].sort(cmp)` — a copy of
the rows, stably sorted by the comparator (`a` before `b` when
`rowCmp s a b ≤ 0`). -/
def getSortedRows (d : Dataset) (s : SortState) : List Row :=
  List.insertionSort (fun a b => rowCmp s a b ≤ 0) d.rows

/-- `this` — the mutable fields of a `LeaderboardRenderer` instance.  The
element-id / url configuration strings are not modelled: the DOM is modelled
positionally by the three target elements the ids resolve to. -/
structure RendererState where
  data : Option Dataset
  sortConfig : SortState
  deriving DecidableEq

/-- The renderer's initial sort configuration (constructor, lines 24-27). -/
def initialSortState : SortState :=
  { key := "average", direction := Direction.desc }

/-- A rendered `<th>`: its text, its CSS classes in application order, and the
column id a bound click handler would pass to `handleSort` (if any). -/
structure HeaderCell where
  text : String
  classes : List String
  onClick : Option String
  deriving DecidableEq, Repr

/-- A rendered `<td>`: its text and its CSS classes. -/
structure BodyCell where
  text : String
  classes : List String
  deriving DecidableEq, Repr

/-- The class appended to a sorted column's header (line 85). -/
def sortDirClass : Direction → String
  | Direction.asc => "sorted-asc"
  | Direction.desc => "sorted-desc"

/-- `createHeaderRow` (lines 73-97): one `<th>` per column in column order;
a sortable column gets class `sortable` and a click handler for its id, plus
`sorted-asc`/`sorted-desc` when it is the current sort key; an emphasized
column additionally gets `average-column`. -/
def createHeaderRow (d : Dataset) (sc : SortState) : List HeaderCell :=
  d.columns.map fun c =>
    if c.sortable then
      { text := c.label
        classes := ("sortable" ::
            (if sc.key == c.id then [sortDirClass sc.direction] else []))
          ++ (if c.emphasized then ["average-column"] else [])
        onClick := some c.id }
    else
      { text := c.label
        classes := if c.emphasized then ["average-column"] else []
        onClick := none }

/-- `td.textContent = row[column.id]` (line 128): a number prints as its
decimal text, a string is itself, and `undefined` is written as the empty
string (the DOM `textContent` setter turns `undefined` into `null`, and
`null` into `""`). -/
def valueText : Option Value → String
  | none => ""
  | some (Value.num n) => toString n
  | some (Value.str s) => s

/-- `createTableBody` (lines 120-145): one `<tr>` per row of `sortedRows`, in
order; inside each, one `<td>` per column in column order, text set to the
row's value at the column id; the hard-coded ids `method` / `average` receive
the classes `method-column` / `average-column`. -/
def createTableBody (d : Dataset) (sortedRows : List Row) : List (List BodyCell) :=
  sortedRows.map fun row =>
    d.columns.map fun c =>
      { text := valueText (rowGet row c.id)
        classes := (if c.id == "method" then ["method-column"] else [])
          ++ (if c.id == "average" then ["average-column"] else []) }

/-- The three DOM elements the module writes to, each possibly absent
(`getElementById` returning `null`).  The head/body containers hold the rows
last assigned to them (`innerHTML = ''` followed by `appendChild`). -/
structure Dom where
  title : Option String
  head : Option (List (List HeaderCell))
  body : Option (List (List BodyCell))
  deriving DecidableEq

/-- `renderTable` (lines 150-178).  With no dataset it logs
`No data available to render table` and mutates nothing.  Otherwise it writes
the dataset title, the header row and the sorted body rows — each only into a
target element that exists.  All property accesses in this path are
null-guarded in the source, so the function is total (never throws); the
second component is the `console.error` output. -/
def renderTable (st : RendererState) (dom : Dom) : Dom × List String :=
  match st.data with
  | none => (dom, ["No data available to render table"])
  | some d =>
      ({ title := dom.title.map fun _ => d.title
         head := dom.head.map fun _ => [createHeaderRow d st.sortConfig]
         body := dom.body.map fun _ =>
           createTableBody d (getSortedRows d st.sortConfig) }, [])

/-- The sort-state update of `handleSort` (lines 60-65): direction `desc`
exactly when the clicked key is the current key and the current direction is
`asc`; otherwise `asc`.  The new state replaces the old wholesale. -/
def nextSortState (cur : SortState) (key : String) : SortState :=
  { key := key
    direction :=
      if cur.key == key && (cur.direction == Direction.asc) then
        Direction.desc
      else
        Direction.asc }

/-- `handleSort` (lines 60-67): updates `this.sortConfig`, then re-renders. -/
def handleSort (st : RendererState) (dom : Dom) (key : String) :
    RendererState × Dom × List String :=
  let st' : RendererState := { st with sortConfig := nextSortState st.sortConfig key }
  (st', renderTable st' dom)

/-- The outcome of `await response.json()`: a parsed dataset, or a rejection
with a parse-error message. -/
inductive JsonBody where
  | ok (d : Dataset)
  | parseFail (msg : String)
  deriving DecidableEq

/-- A resolved `fetch` response: status, status text and body. -/
structure HttpResponse where
  status : Nat
  statusText : String
  body : JsonBody
  deriving DecidableEq

/-- `response.ok`: status in the inclusive range 200-299. -/
def respOk (r : HttpResponse) : Bool :=
  200 ≤ r.status && r.status ≤ 299

/-- The environment's answer to `fetch(this.dataUrl)`: a response, or a
transport-level rejection. -/
inductive FetchOutcome where
  | resp (r : HttpResponse)
  | networkError (msg : String)
  deriving DecidableEq

/-- A thrown JS error, by kind. -/
inductive JsError where
  | error (msg : String)
  | typeError (msg : String)
  | parseError (msg : String)
  | networkError (msg : String)
  deriving DecidableEq

/-- The error message thrown on a non-ok response (line 44). -/
def failMsg (r : HttpResponse) : String :=
  "Failed to load data: " ++ toString r.status ++ " " ++ r.statusText

/-- `loadData` (lines 39-54), as a function of the fetch outcome.  The `try`
block throws on a network failure, a non-ok status, or a parse failure, and
otherwise stores the parsed dataset in `this.data` and returns it.  The
`catch` block then writes `Error loading leaderboard data` into the title
element and re-throws — but line 51 dereferences `getElementById(titleId)`
without a null check, so when the title element is absent the write itself
throws a `TypeError`, which replaces the original error.  Returns the settled
promise value, the updated instance state and the updated DOM. -/
def loadData (st : RendererState) (dom : Dom) (f : FetchOutcome) :
    Except JsError Dataset × RendererState × Dom :=
  let attempt : Except JsError Dataset :=
    match f with
    | FetchOutcome.networkError m => Except.error (JsError.networkError m)
    | FetchOutcome.resp r =>
        if respOk r then
          match r.body with
          | JsonBody.ok d => Except.ok d
          | JsonBody.parseFail m => Except.error (JsError.parseError m)
        else
          Except.error (JsError.error (failMsg r))
  match attempt with
  | Except.ok d => (Except.ok d, { st with data := some d }, dom)
  | Except.error e =>
      match dom.title with
      | none =>
          (Except.error (JsError.typeError "Cannot set properties of null"), st, dom)
      | some _ =>
          (Except.error e, st, { dom with title := some "Error loading leaderboard data" })

/-- `init` (lines 184-193): awaits `loadData`; on success renders and resolves
`true`; on any failure logs and resolves `false` (the error is swallowed). -/
def init (st : RendererState) (dom : Dom) (f : FetchOutcome) :
    Bool × RendererState × Dom :=
  match loadData st dom f with
  | (Except.ok _, st', dom') => (true, st', (renderTable st' dom').1)
  | (Except.error _, st', dom') => (false, st', dom')

/-! ## Properties of the comparator -/

/-- JS `<` on cell values is asymmetric. -/
theorem jsLt_asymm {u v : Option Value} (h : jsLt u v = true) : jsLt v u = false := by
  rcases u with _ | (a | a) <;> rcases v with _ | (b | b) <;>
    simp [jsLt] at h ⊢
  · omega
  · exact le_of_lt h

/-- The comparator is total in the JS sense: one of the two orders of any pair
compares `≤ 0`. -/
theorem rowCmp_total (s : SortState) (a b : Row) :
    rowCmp s a b ≤ 0 ∨ rowCmp s b a ≤ 0 := by
  unfold rowCmp
  cases h1 : jsLt (rowGet a s.key) (rowGet b s.key)
  · cases h2 : jsLt (rowGet b s.key) (rowGet a s.key)
    · cases s.direction <;> simp [h1, h2]
    · cases s.direction <;> simp [h1, h2]
  · have h2 := jsLt_asymm h1
    cases s.direction <;> simp [h1, h2]

/-- On rows that both hold a number at the sort key, `rowCmp ≤ 0` is the
value order, flipped for `'desc'`. -/
theorem rowCmp_le_num {s : SortState} {a b : Row} {x y : Int}
    (ha : rowGet a s.key = some (Value.num x))
    (hb : rowGet b s.key = some (Value.num y)) :
    rowCmp s a b ≤ 0 ↔
      (match s.direction with
       | Direction.asc => x ≤ y
       | Direction.desc => y ≤ x) := by
  unfold rowCmp
  rw [ha, hb]
  cases s.direction with
  | asc =>
      simp only [jsLt, decide_eq_true_eq]
      split_ifs with h1 h2
      · simp [le_of_lt h1]
      · simp [not_le.mpr h2]
      · simp [not_lt.mp h2]
  | desc =>
      simp only [jsLt, decide_eq_true_eq]
      split_ifs with h1 h2
      · simp [not_le.mpr h1]
      · simp [le_of_lt h2]
      · simp [not_lt.mp h1]

/-- On rows that both hold a string at the sort key, `rowCmp ≤ 0` is the
lexicographic order, flipped for `'desc'`. -/
theorem rowCmp_le_str {s : SortState} {a b : Row} {x y : String}
    (ha : rowGet a s.key = some (Value.str x))
    (hb : rowGet b s.key = some (Value.str y)) :
    rowCmp s a b ≤ 0 ↔
      (match s.direction with
       | Direction.asc => x ≤ y
       | Direction.desc => y ≤ x) := by
  unfold rowCmp
  rw [ha, hb]
  cases s.direction with
  | asc =>
      simp only [jsLt, decide_eq_true_eq]
      split_ifs with h1 h2
      · simp [le_of_lt h1]
      · simp [not_le.mpr h2]
      · simp [not_lt.mp h2]
  | desc =>
      simp only [jsLt, decide_eq_true_eq]
      split_ifs with h1 h2
      · simp [not_le.mpr h1]
      · simp [le_of_lt h2]
      · simp [not_lt.mp h1]

/-! ## Sortedness of a stable insertion sort under a locally transitive,
total relation -/

theorem pairwise_orderedInsert_of {α : Type u} (le : α → α → Prop)
    [DecidableRel le] (htot : ∀ a b, le a b ∨ le b a) (x : α) (l : List α) :
    (∀ a ∈ x :: l, ∀ b ∈ x :: l, ∀ c ∈ x :: l, le a b → le b c → le a c) →
    l.Pairwise le → (List.orderedInsert le x l).Pairwise le := by
  induction l with
  | nil =>
      intro _ _
      simp [List.orderedInsert]
  | cons y ys ih =>
      intro htr hl
      rcases List.pairwise_cons.mp hl with ⟨hy, hys⟩
      rw [List.orderedInsert]
      by_cases h : le x y
      · rw [if_pos h]
        refine List.pairwise_cons.mpr ⟨?_, hl⟩
        intro z hz
        rcases List.mem_cons.mp hz with rfl | hz'
        · exact h
        · exact htr x (List.mem_cons_self x _) y
            (List.mem_cons_of_mem x (List.mem_cons_self y ys)) z
            (List.mem_cons_of_mem x (List.mem_cons_of_mem y hz')) h (hy z hz')
      · rw [if_neg h]
        have emb : ∀ w, w ∈ x :: ys → w ∈ x :: y :: ys := by
          intro w hw
          rcases List.mem_cons.mp hw with rfl | hw'
          · exact List.mem_cons_self _ _
          · exact List.mem_cons_of_mem _ (List.mem_cons_of_mem _ hw')
        refine List.pairwise_cons.mpr ⟨?_, ?_⟩
        · intro z hz
          rcases (List.mem_orderedInsert le).mp hz with rfl | hz'
          · exact (htot z y).resolve_left h
          · exact hy z hz'
        · exact ih (fun a ha b hb c hc => htr a (emb a ha) b (emb b hb) c (emb c hc)) hys

theorem pairwise_insertionSort_of {α : Type u} (le : α → α → Prop)
    [DecidableRel le] (htot : ∀ a b, le a b ∨ le b a) (l : List α) :
    (∀ a ∈ l, ∀ b ∈ l, ∀ c ∈ l, le a b → le b c → le a c) →
    (List.insertionSort le l).Pairwise le := by
  induction l with
  | nil =>
      intro _
      simp
  | cons x xs ih =>
      intro htr
      rw [List.insertionSort]
      have hsub : ∀ w, w ∈ x :: List.insertionSort le xs → w ∈ x :: xs := by
        intro w hw
        rcases List.mem_cons.mp hw with rfl | hw'
        · exact List.mem_cons_self _ _
        · exact List.mem_cons_of_mem _ ((List.perm_insertionSort le xs).mem_iff.mp hw')
      exact pairwise_orderedInsert_of le htot x _
        (fun a ha b hb c hc => htr a (hsub a ha) b (hsub b hb) c (hsub c hc))
        (ih (fun a ha b hb c hc =>
          htr a (List.mem_cons_of_mem _ ha) b (List.mem_cons_of_mem _ hb) c
            (List.mem_cons_of_mem _ hc)))

/-! ## Completeness of the substring check -/

theorem isPrefixOf_self_append (pat q : List Char) :
    pat.isPrefixOf (pat ++ q) = true := by
  induction pat with
  | nil =>
      cases q with
      | nil => rfl
      | cons b bs => rfl
  | cons c cs ih =>
      show ((c == c) && cs.isPrefixOf (cs ++ q)) = true
      rw [ih, beq_self_eq_true]
      rfl

theorem listHasInfix_of_prefix {pat l : List Char}
    (h : pat.isPrefixOf l = true) : listHasInfix pat l = true := by
  cases l with
  | nil =>
      cases pat with
      | nil => rfl
      | cons c cs => exact absurd h (by simp [List.isPrefixOf])
  | cons c cs =>
      show (pat.isPrefixOf (c :: cs) || listHasInfix pat cs) = true
      rw [h, Bool.true_or]

/-- Any explicit decomposition witnesses containment: `strContains` cannot
answer `false` on a string of the form `p ++ pat ++ q`. -/
theorem listHasInfix_decomp (pat p q : List Char) :
    listHasInfix pat (p ++ pat ++ q) = true := by
  induction p with
  | nil => exact listHasInfix_of_prefix (isPrefixOf_self_append pat q)
  | cons a p' ih =>
      show (pat.isPrefixOf (a :: (p' ++ pat ++ q))
          || listHasInfix pat (p' ++ pat ++ q)) = true
      rw [ih, Bool.or_true]

theorem strContains_decomp (p pat q : String) :
    strContains (p ++ pat ++ q) pat = true := by
  unfold strContains
  rw [String.data_append, String.data_append]
  exact listHasInfix_decomp pat.data p.data q.data

/-! ## Claims about sorting -/

/-- C1 (counterexample).  The claim quantifies over every Dataset, but a row
without a value at the sort key compares equal to everything, which lets the
sort leave genuinely unordered rows: with rows holding 2, nothing, 1 at key
`a` and direction `asc`, the output keeps 2 before 1 — a pair in sequence
order whose first value is not `<=` the second, so the claimed pairwise
sortedness evaluates to `false` on this input. -/
theorem getSortedRows_sorted_cex :
    getSortedRows
        { title := "T", columns := [],
          rows := [[("a", Value.num 2)], [], [("a", Value.num 1)]] }
        { key := "a", direction := Direction.asc }
      = [[("a", Value.num 2)], [], [("a", Value.num 1)]] ∧
    jsLe (rowGet [("a", Value.num 2)] "a") (rowGet [("a", Value.num 1)] "a") = false ∧
    decide ((getSortedRows
        { title := "T", columns := [],
          rows := [[("a", Value.num 2)], [], [("a", Value.num 1)]] }
        { key := "a", direction := Direction.asc }).Pairwise
        (fun a b => jsLe (rowGet a "a") (rowGet b "a") = true)) = false :=
  ⟨by decide, by decide, by decide⟩

/-- C1 (amended).  For every Dataset and SortState in which every row holds a
value at `SortState.key` and the values are mutually comparable (all numbers,
or all strings), the sequence returned by `getSortedRows` is sorted on the
value at the key: under `'asc'` every pair `a` before `b` satisfies
`a[key] <= b[key]`, and under `'desc'` every such pair satisfies
`a[key] >= b[key]`. -/
theorem getSortedRows_sorted (d : Dataset) (s : SortState)
    (hvals : (∀ r ∈ d.rows, ∃ n : Int, rowGet r s.key = some (Value.num n)) ∨
             (∀ r ∈ d.rows, ∃ t : String, rowGet r s.key = some (Value.str t))) :
    (getSortedRows d s).Pairwise (fun a b =>
      (match s.direction with
       | Direction.asc => jsLe (rowGet a s.key) (rowGet b s.key)
       | Direction.desc => jsGe (rowGet a s.key) (rowGet b s.key)) = true) := by
  have hmem : ∀ r ∈ getSortedRows d s, r ∈ d.rows := fun r hr =>
    ((List.perm_insertionSort (fun a b => rowCmp s a b ≤ 0) d.rows).mem_iff).mp hr
  have hpair : (getSortedRows d s).Pairwise (fun a b => rowCmp s a b ≤ 0) := by
    unfold getSortedRows
    refine pairwise_insertionSort_of _ (rowCmp_total s) d.rows ?_
    intro a ha b hb c hc hab hbc
    rcases hvals with hnum | hstr
    · obtain ⟨x, hx⟩ := hnum a ha
      obtain ⟨y, hy⟩ := hnum b hb
      obtain ⟨z, hz⟩ := hnum c hc
      rw [rowCmp_le_num hx hy] at hab
      rw [rowCmp_le_num hy hz] at hbc
      rw [rowCmp_le_num hx hz]
      revert hab hbc
      cases s.direction <;> intro hab hbc
      · exact le_trans hab hbc
      · exact le_trans hbc hab
    · obtain ⟨x, hx⟩ := hstr a ha
      obtain ⟨y, hy⟩ := hstr b hb
      obtain ⟨z, hz⟩ := hstr c hc
      rw [rowCmp_le_str hx hy] at hab
      rw [rowCmp_le_str hy hz] at hbc
      rw [rowCmp_le_str hx hz]
      revert hab hbc
      cases s.direction <;> intro hab hbc
      · exact le_trans hab hbc
      · exact le_trans hbc hab
  refine List.Pairwise.imp_of_mem ?_ hpair
  intro a b ha hb hab
  have ha' := hmem a ha
  have hb' := hmem b hb
  rcases hvals with hnum | hstr
  · obtain ⟨x, hx⟩ := hnum a ha'
    obtain ⟨y, hy⟩ := hnum b hb'
    rw [rowCmp_le_num hx hy] at hab
    revert hab
    cases s.direction <;> intro hab
    · rw [hx, hy]
      simpa [jsLe] using hab
    · rw [hx, hy]
      simpa [jsGe] using hab
  · obtain ⟨x, hx⟩ := hstr a ha'
    obtain ⟨y, hy⟩ := hstr b hb'
    rw [rowCmp_le_str hx hy] at hab
    revert hab
    cases s.direction <;> intro hab
    · rw [hx, hy]
      simpa [jsLe] using hab
    · rw [hx, hy]
      simpa [jsGe] using hab

/-- C1 (witness for the amended theorem): a concrete all-numeric dataset. -/
theorem getSortedRows_sorted_witness :
    (getSortedRows
        { title := "T", columns := [],
          rows := [[("a", Value.num 3)], [("a", Value.num 1)], [("a", Value.num 2)]] }
        { key := "a", direction := Direction.asc }).Pairwise (fun a b =>
      (match Direction.asc with
       | Direction.asc => jsLe (rowGet a "a") (rowGet b "a")
       | Direction.desc => jsGe (rowGet a "a") (rowGet b "a")) = true) :=
  getSortedRows_sorted
    { title := "T", columns := [],
      rows := [[("a", Value.num 3)], [("a", Value.num 1)], [("a", Value.num 2)]] }
    { key := "a", direction := Direction.asc }
    (Or.inl (by
      intro r hr
      simp only [List.mem_cons, List.not_mem_nil, or_false] at hr
      rcases hr with rfl | rfl | rfl
      · exact ⟨3, rfl⟩
      · exact ⟨1, rfl⟩
      · exact ⟨2, rfl⟩))

/-- C2: `getSortedRows` returns a permutation of `Dataset.rows` — same
length, same multiset (element counts agree).  The input `Dataset` itself is
untouched: the source sorts a spread copy `[...this.data.rows]`, embedded
here as a pure function of the row list that leaves the dataset value
unchanged. -/
theorem getSortedRows_perm (d : Dataset) (s : SortState) :
    List.Perm (getSortedRows d s) d.rows ∧
      (getSortedRows d s).length = d.rows.length ∧
      ∀ r : Row, (getSortedRows d s).count r = d.rows.count r := by
  have h := List.perm_insertionSort (fun a b => rowCmp s a b ≤ 0) d.rows
  exact ⟨h, h.length_eq, fun r => h.count_eq r⟩

/-- C3: `handleSort` replaces the sort state with `{key, direction}` where
the direction is `'desc'` exactly when the clicked key is the current key and
the current direction is `'asc'`, and `'asc'` otherwise — together with the
toggle instances named by the claim. -/
theorem handleSort_toggle :
    (∀ (st : RendererState) (dom : Dom) (key : String),
        (handleSort st dom key).1.sortConfig =
          { key := key
            direction :=
              if st.sortConfig.key = key ∧ st.sortConfig.direction = Direction.asc then
                Direction.desc
              else Direction.asc }) ∧
    nextSortState { key := "average", direction := Direction.desc } "average"
      = { key := "average", direction := Direction.asc } ∧
    nextSortState { key := "average", direction := Direction.asc } "average"
      = { key := "average", direction := Direction.desc } ∧
    nextSortState { key := "average", direction := Direction.desc } "method"
      = { key := "method", direction := Direction.asc } ∧
    nextSortState { key := "average", direction := Direction.asc } "method"
      = { key := "method", direction := Direction.asc } := by
  refine ⟨?_, by decide, by decide, by decide, by decide⟩
  intro st dom key
  show nextSortState st.sortConfig key = _
  unfold nextSortState
  by_cases h1 : st.sortConfig.key = key <;>
    by_cases h2 : st.sortConfig.direction = Direction.asc <;>
      simp [h1, h2]

/-! ## Claims about loading, rendering and error handling -/

/-- C4 (counterexample).  After a 404 the title element's text is the fixed
string written at line 51, `Error loading leaderboard data`, and the
substring check for `"404"` on it answers `false` (by `strContains_decomp`
no decomposition `p ++ "404" ++ q` of the text can exist). -/
theorem init_404_cex :
    (init { data := none, sortConfig := initialSortState }
          { title := some "", head := some [], body := some [] }
          (FetchOutcome.resp
            { status := 404, statusText := "Not Found",
              body := JsonBody.parseFail "" })).2.2.title
        = some "Error loading leaderboard data" ∧
      strContains "Error loading leaderboard data" "404" = false :=
  ⟨rfl, rfl⟩

/-- C4 (amended).  If the fetch returns HTTP 404 (with the title element
present), `init` resolves `false`, the instance state is unchanged, and the
title element's text becomes the fixed error string
`Error loading leaderboard data` — which does **not** contain `"404"`; the
head and body containers are untouched (so an initially empty body stays
empty). -/
theorem init_404 (st : RendererState) (dom : Dom) (r : HttpResponse)
    (t : String) (htitle : dom.title = some t) (hstatus : r.status = 404) :
    init st dom (FetchOutcome.resp r)
      = (false, st, { dom with title := some "Error loading leaderboard data" }) := by
  have hok : respOk r = false := by
    simp [respOk, hstatus]
  simp [init, loadData, hok, htitle]

/-- C4 (witness): the amended theorem at a concrete 404 response. -/
theorem init_404_witness :
    init { data := none, sortConfig := initialSortState }
        { title := some "Old", head := some [], body := some [] }
        (FetchOutcome.resp
          { status := 404, statusText := "Not Found", body := JsonBody.parseFail "" })
      = (false, { data := none, sortConfig := initialSortState },
         { title := some "Error loading leaderboard data",
           head := some [], body := some [] }) :=
  init_404 _ _ _ "Old" rfl rfl

/-- C5: with the title element present, a non-ok response makes `loadData`
fail with an `Error` whose message (`failMsg`) carries the status and status
text, after writing the error message into the title element; an ok response
whose body parses stores the parsed dataset in `this.data` and returns it,
touching no DOM element. -/
theorem loadData_contract (st : RendererState) (dom : Dom) (r : HttpResponse)
    (t : String) (htitle : dom.title = some t) :
    (respOk r = false →
      loadData st dom (FetchOutcome.resp r)
        = (Except.error (JsError.error (failMsg r)), st,
           { dom with title := some "Error loading leaderboard data" })) ∧
    ∀ d : Dataset, r.body = JsonBody.ok d → respOk r = true →
      loadData st dom (FetchOutcome.resp r)
        = (Except.ok d, { st with data := some d }, dom) := by
  constructor
  · intro hok
    simp [loadData, hok, htitle]
  · intro d hbody hok
    simp [loadData, hok, hbody]

/-- C5 (witness): the failure branch of the contract at a concrete 500
response. -/
theorem loadData_contract_witness :
    loadData { data := none, sortConfig := initialSortState }
        { title := some "T", head := none, body := none }
        (FetchOutcome.resp
          { status := 500, statusText := "Server Error", body := JsonBody.parseFail "" })
      = (Except.error (JsError.error
           (failMsg { status := 500, statusText := "Server Error",
                      body := JsonBody.parseFail "" })),
         { data := none, sortConfig := initialSortState },
         { title := some "Error loading leaderboard data",
           head := none, body := none }) :=
  (loadData_contract _ _ _ "T" rfl).1 rfl

/-- C6: `renderTable` with the dataset unset logs
`No data available to render table` and returns the DOM unchanged.  It raises
nothing: every property access on this path is null-guarded in the source,
and the embedding is a total function. -/
theorem renderTable_noData (st : RendererState) (dom : Dom)
    (h : st.data = none) :
    renderTable st dom = (dom, ["No data available to render table"]) := by
  unfold renderTable
  rw [h]

/-- C6 (witness): a concrete unset-dataset render. -/
theorem renderTable_noData_witness :
    renderTable { data := none, sortConfig := initialSortState }
        { title := some "x", head := some [], body := some [] }
      = ({ title := some "x", head := some [], body := some [] },
         ["No data available to render table"]) :=
  renderTable_noData _ _ rfl

/-- C7: in the table body, row `i` contributes one cell per column in column
order (one output row per input row, of length `columns.length`), the cell
for column `j` has text `valueText (row[column.id])`, and a missing value
renders as empty text. -/
theorem createTableBody_cells (d : Dataset) (rows : List Row) (i j : Nat)
    (row : Row) (c : Column)
    (hrow : rows[i]? = some row) (hc : d.columns[j]? = some c) :
    (createTableBody d rows).length = rows.length ∧
    ∃ cells : List BodyCell,
      (createTableBody d rows)[i]? = some cells ∧
      cells.length = d.columns.length ∧
      ∃ cell : BodyCell, cells[j]? = some cell ∧
        cell.text = valueText (rowGet row c.id) ∧
        (rowGet row c.id = none → cell.text = "") := by
  have h1 : (createTableBody d rows)[i]? = some (d.columns.map fun c' =>
      ({ text := valueText (rowGet row c'.id)
         classes := (if c'.id == "method" then ["method-column"] else [])
           ++ (if c'.id == "average" then ["average-column"] else []) } : BodyCell)) := by
    unfold createTableBody
    rw [List.getElem?_map, hrow]
    rfl
  have h2 : (d.columns.map fun c' =>
      ({ text := valueText (rowGet row c'.id)
         classes := (if c'.id == "method" then ["method-column"] else [])
           ++ (if c'.id == "average" then ["average-column"] else []) } : BodyCell))[j]?
      = some { text := valueText (rowGet row c.id)
               classes := (if c.id == "method" then ["method-column"] else [])
                 ++ (if c.id == "average" then ["average-column"] else []) } := by
    rw [List.getElem?_map, hc]
    rfl
  refine ⟨by simp [createTableBody], _, h1, by simp, _, h2, rfl, ?_⟩
  intro hnone
  simp [hnone, valueText]

/-- C7 (witness): a one-row, one-column table body. -/
theorem createTableBody_cells_witness :
    (createTableBody
        { title := "T",
          columns := [{ id := "a", label := "A", sortable := true, emphasized := false }],
          rows := [] }
        [[("a", Value.num 3)]]).length = ([[("a", Value.num 3)]] : List Row).length ∧
    ∃ cells : List BodyCell,
      (createTableBody
        { title := "T",
          columns := [{ id := "a", label := "A", sortable := true, emphasized := false }],
          rows := [] }
        [[("a", Value.num 3)]])[0]? = some cells ∧
      cells.length = 1 ∧
      ∃ cell : BodyCell, cells[0]? = some cell ∧
        cell.text = valueText (rowGet [("a", Value.num 3)] "a") ∧
        (rowGet [("a", Value.num 3)] "a" = none → cell.text = "") :=
  createTableBody_cells
    { title := "T",
      columns := [{ id := "a", label := "A", sortable := true, emphasized := false }],
      rows := [] }
    [[("a", Value.num 3)]] 0 0 [("a", Value.num 3)]
    { id := "a", label := "A", sortable := true, emphasized := false } rfl rfl

/-- C8 (counterexample).  The error-message write of `loadData` is *not*
tolerant of a missing title element: with the title element absent, a failing
load raises a `TypeError` from the unguarded
`document.getElementById(titleId).textContent` (line 51) instead of silently
skipping — the propagated error is the `TypeError`, not the fetch error. -/
theorem loadData_missingTitle_cex :
    loadData { data := none, sortConfig := initialSortState }
        { title := none, head := some [], body := some [] }
        (FetchOutcome.resp
          { status := 404, statusText := "Not Found", body := JsonBody.parseFail "x" })
      = (Except.error (JsError.typeError "Cannot set properties of null"),
         { data := none, sortConfig := initialSortState },
         { title := none, head := some [], body := some [] }) := by
  rfl

/-- C8 (amended).  The three writes of `renderTable` do tolerate an absent
target silently (each is null-checked independently, and an absent container
is simply skipped), but the error-message write of `loadData` does not:
whenever a failing `loadData` runs with the title element absent, the error
it propagates is the `TypeError` raised by the unguarded write. -/
theorem dom_absence (st : RendererState) (dom : Dom) :
    (dom.title = none → (renderTable st dom).1.title = none) ∧
    (dom.head = none → (renderTable st dom).1.head = none) ∧
    (dom.body = none → (renderTable st dom).1.body = none) ∧
    ∀ (f : FetchOutcome) (e : JsError) (st' : RendererState) (dom' : Dom),
      dom.title = none →
      loadData st dom f = (Except.error e, st', dom') →
      e = JsError.typeError "Cannot set properties of null" := by
  refine ⟨?_, ?_, ?_, ?_⟩
  · intro h
    unfold renderTable
    cases st.data <;> simp [h]
  · intro h
    unfold renderTable
    cases st.data <;> simp [h]
  · intro h
    unfold renderTable
    cases st.data <;> simp [h]
  · intro f e st' dom' htitle heq
    rcases f with r | m
    · cases hok : respOk r
      · simp [loadData, hok, htitle] at heq
        exact heq.1.symm
      · rcases hb : r.body with d | m
        · simp [loadData, hok, hb] at heq
        · simp [loadData, hok, hb, htitle] at heq
          exact heq.1.symm
    · simp [loadData, htitle] at heq
      exact heq.1.symm

/-- C8 (witness): an absent title is skipped by `renderTable`, and a concrete
failing load with the title absent propagates the `TypeError`. -/
theorem dom_absence_witness :
    ((renderTable { data := none, sortConfig := initialSortState }
        { title := none, head := none, body := none }).1.title = none) ∧
    JsError.typeError "Cannot set properties of null"
      = JsError.typeError "Cannot set properties of null" :=
  ⟨(dom_absence { data := none, sortConfig := initialSortState }
      { title := none, head := none, body := none }).1 rfl,
   (dom_absence { data := none, sortConfig := initialSortState }
      { title := none, head := none, body := none }).2.2.2
     (FetchOutcome.networkError "down")
     (JsError.typeError "Cannot set properties of null")
     { data := none, sortConfig := initialSortState }
     { title := none, head := none, body := none } rfl rfl⟩

/-- C9 (counterexample).  `handleSort` with the dataset unset does have a
side effect: it still replaces `this.sortConfig` (lines 60-65 run before the
dataset check inside `renderTable`), so the renderer instance's observable
state changes. -/
theorem handleSort_noData_cex :
    (handleSort { data := none, sortConfig := initialSortState }
        { title := none, head := none, body := none } "method").1
      = { data := none, sortConfig := { key := "method", direction := Direction.asc } } ∧
    decide (({ data := none, sortConfig := { key := "method", direction := Direction.asc } }
        : RendererState)
      = { data := none, sortConfig := initialSortState }) = false :=
  ⟨rfl, rfl⟩

/-- C9 (amended).  If the dataset is unset, `handleSort` performs no DOM
mutation — the triggered re-render no-ops and logs — but the sort state *is*
still replaced according to the toggle rule. -/
theorem handleSort_noData (st : RendererState) (dom : Dom) (key : String)
    (h : st.data = none) :
    (handleSort st dom key).2.1 = dom ∧
    (handleSort st dom key).2.2 = ["No data available to render table"] ∧
    (handleSort st dom key).1
      = { data := none, sortConfig := nextSortState st.sortConfig key } := by
  rcases st with ⟨dta, sc⟩
  simp only at h
  subst h
  exact ⟨rfl, rfl, rfl⟩

/-- C9 (witness): the amended theorem at a concrete unset-dataset state. -/
theorem handleSort_noData_witness :
    (handleSort { data := none, sortConfig := initialSortState }
        { title := some "t", head := none, body := none } "method").2.1
      = { title := some "t", head := none, body := none } ∧
    (handleSort { data := none, sortConfig := initialSortState }
        { title := some "t", head := none, body := none } "method").2.2
      = ["No data available to render table"] ∧
    (handleSort { data := none, sortConfig := initialSortState }
        { title := some "t", head := none, body := none } "method").1
      = { data := none,
          sortConfig := nextSortState initialSortState "method" } :=
  handleSort_noData { data := none, sortConfig := initialSortState }
    { title := some "t", head := none, body := none } "method" rfl

/-- C10: `loadData` is atomic on failure — whenever it fails (non-ok status,
network error, parse error, or even the `TypeError` from a missing title
element), the instance state, and in particular the stored dataset, is
exactly the input state: `this.data` is assigned only after a successful
parse. -/
theorem loadData_atomic (st : RendererState) (dom : Dom) (f : FetchOutcome)
    (e : JsError) (st' : RendererState) (dom' : Dom)
    (h : loadData st dom f = (Except.error e, st', dom')) :
    st' = st := by
  rcases f with r | m
  · cases hok : respOk r
    · cases ht : dom.title <;> simp [loadData, hok, ht] at h
      · exact h.2.1.symm
      · exact h.2.1.symm
    · rcases hb : r.body with d | m
      · simp [loadData, hok, hb] at h
      · cases ht : dom.title <;> simp [loadData, hok, hb, ht] at h
        · exact h.2.1.symm
        · exact h.2.1.symm
  · cases ht : dom.title <;> simp [loadData, ht] at h
    · exact h.2.1.symm
    · exact h.2.1.symm

/-- C10 (witness): a concrete failing (network error) load leaves the state
unchanged. -/
theorem loadData_atomic_witness :
    ({ data := none, sortConfig := initialSortState } : RendererState)
      = { data := none, sortConfig := initialSortState } :=
  loadData_atomic { data := none, sortConfig := initialSortState }
    { title := some "T", head := none, body := none }
    (FetchOutcome.networkError "down") (JsError.networkError "down")
    { data := none, sortConfig := initialSortState }
    { title := some "Error loading leaderboard data", head := none, body := none }
    rfl

end Leaderboard
